import Mathlib

/-!
Verification development for the refinery document-refinement service.

The definitions below are a shallow embedding of the Python sources:

* `src/refinery/features/confidence/confidence_calculator.py`
* `src/refinery/features/refinement/ocr_processor.py`
* `src/refinery/features/refinement/mistral_ocr_processor.py`
* `src/refinery/features/structured_output/openai_structured_output_processor.py`
* `src/refinery/features/structured_output/openai_structured_output_with_confidence.py`
* `src/refinery/validators/json_schema.py` and `src/refinery/routers/refine.py`

Python floats are modelled as exact rationals (`ℚ`), Python ints as `ℤ`
(or `ℕ` where the source only ever sees lengths), JSON values as an
inductive `Json` type whose objects are ordered association lists
(mirroring Python's insertion-ordered `dict`), and raising an exception
as `Option`/`none` or an explicit error value.
-/

namespace Refinery

/-! ## Confidence calculator
(`src/refinery/features/confidence/confidence_calculator.py`) -/

/-- Python `round(x, 3)` as applied by `calculate_overall_confidence`.
At three decimal places a binary double never lies exactly on a rounding
tie (a tie has denominator divisible by 5^3), so Python's banker's
rounding on the float coincides with plain round-to-nearest; on the exact
rational model we take the half-up representative, which agrees with the
code at the tie that arises in the repository's own test
(the float computed for `0.8 * 0.375 + 0.9 * 0.625` lies just above
`0.8625` and `round(·, 3)` yields `0.863`). -/
def round3 (q : ℚ) : ℚ := (⌊q * 1000 + 1/2⌋ : ℚ) / 1000

/-- The `ConfidenceCalculator` dataclass: three construction-time weights,
with dataclass defaults `0.3`, `0.2`, `0.5` (see `defaultCalculator`). -/
structure ConfidenceCalculator where
  ocr_weight : ℚ
  summarization_weight : ℚ
  schema_matching_weight : ℚ

/-- `ConfidenceCalculator()` with the dataclass default weights. -/
def defaultCalculator : ConfidenceCalculator := ⟨3/10, 1/5, 1/2⟩

/-- One `if ... is not None: scores.append(...); weights.append(...)`
step of `calculate_overall_confidence`. -/
def collectScore (score : Option ℚ) (weight : ℚ) : List (ℚ × ℚ) :=
  match score with
  | some x => [(x, weight)]
  | none => []

/-- The `scores`/`weights` lists collected by `calculate_overall_confidence`:
each present optional input contributes its score paired with the
configured weight, in the fixed source order (ocr, summarization,
schema_matching). -/
def presentPairs (c : ConfidenceCalculator)
    (ocr summarization schema_matching : Option ℚ) : List (ℚ × ℚ) :=
  collectScore ocr c.ocr_weight ++
  collectScore summarization c.summarization_weight ++
  collectScore schema_matching c.schema_matching_weight

/-- The body of `calculate_overall_confidence` after collection: if no
scores were collected return the fixed default `0.5`; otherwise normalize
each weight by the total weight, take the weighted sum and round to three
decimals.  Python raises `ZeroDivisionError` when the collected weights
sum to `0.0`; this is modelled as `none`. -/
def overallFromPairs (pairs : List (ℚ × ℚ)) : Option ℚ :=
  if pairs = [] then some (1/2)
  else
    let total_weight := (pairs.map Prod.snd).sum
    if total_weight = 0 then none
    else some (round3 ((pairs.map fun p => p.1 * (p.2 / total_weight)).sum))

/-- `ConfidenceCalculator.calculate_overall_confidence`. -/
def calculate_overall_confidence (c : ConfidenceCalculator)
    (ocr summarization schema_matching : Option ℚ) : Option ℚ :=
  overallFromPairs (presentPairs c ocr summarization schema_matching)

/-- `avg_chars_per_page` as computed by `estimate_ocr_confidence`:
`text_length / page_count if page_count > 0 else 0`. -/
def avgCharsPerPage (text_length page_count : ℤ) : ℚ :=
  if page_count > 0 then (text_length : ℚ) / (page_count : ℚ) else 0

/-- The step function at the heart of `estimate_ocr_confidence`. -/
def ocrConfidenceStep (avg : ℚ) : ℚ :=
  if avg < 100 then 3/10
  else if avg < 500 then 3/5
  else if avg < 1500 then 4/5
  else 9/10

/-- `ConfidenceCalculator.estimate_ocr_confidence`. -/
def estimate_ocr_confidence (text_length page_count : ℤ) : ℚ :=
  ocrConfidenceStep (avgCharsPerPage text_length page_count)

/-- `ConfidenceCalculator.estimate_summarization_confidence`. -/
def estimate_summarization_confidence (original_length summary_length : ℤ) : ℚ :=
  if original_length = 0 then 3/10
  else
    let compression_ratio : ℚ := (summary_length : ℚ) / (original_length : ℚ)
    if 1/10 ≤ compression_ratio ∧ compression_ratio ≤ 3/10 then 9/10
    else if 1/20 ≤ compression_ratio ∧ compression_ratio ≤ 2/5 then 7/10
    else if compression_ratio < 1/20 then 1/2
    else 3/5

/-! ## OCR results
(`src/refinery/features/refinement/ocr_processor.py`) -/

/-- The `OCRPageResult` dataclass. -/
structure OCRPageResult where
  page_number : ℤ
  markdown : String

/-- `combine_results`: join the pages, in the order they appear in the
list, with the page-break separator, prefixing each page's markdown with
its `Page {n}:` line. -/
def combine_results (results : List OCRPageResult) : String :=
  String.intercalate "\n\n\\pagebreak\n\n"
    (results.map fun result =>
      "Page " ++ toString result.page_number ++ ":\n" ++ result.markdown)

/-- The `OcrResult` dataclass; `combined_markdown` is an `init=False`
field filled in by `__post_init__`. -/
structure OcrResult where
  pages : List OCRPageResult
  combined_markdown : String

/-- Constructing an `OcrResult` from a page list: `__post_init__` sets
`combined_markdown := combine_results(pages)` once, at construction. -/
def OcrResult.create (pages : List OCRPageResult) : OcrResult :=
  ⟨pages, combine_results pages⟩

/-- Insertion step for `sortByPageNumber`. -/
def insertByPageNumber (r : OCRPageResult) : List OCRPageResult → List OCRPageResult
  | [] => [r]
  | x :: xs =>
    if r.page_number ≤ x.page_number then r :: x :: xs
    else x :: insertByPageNumber r xs

/-- Insertion sort of pages by `page_number` (a stable sort, used only to
express what the spec asserts). -/
def sortByPageNumber : List OCRPageResult → List OCRPageResult
  | [] => []
  | x :: xs => insertByPageNumber x (sortByPageNumber xs)

/-- The pages are listed in nondecreasing `page_number` order. -/
def PagesInOrder (pages : List OCRPageResult) : Prop :=
  List.Pairwise (fun a b => a.page_number ≤ b.page_number) pages

/-- Written from the spec sentence, for comparison with `combine_results`:
"join pages in page_number order with a page-break separator and a
`Page {n}:` prefix per page". -/
def specCombinedMarkdown (pages : List OCRPageResult) : String :=
  combine_results (sortByPageNumber pages)

/-! ## Mistral OCR adapter
(`src/refinery/features/refinement/mistral_ocr_processor.py`,
`MistralOcrProcessor.process_file`, lines 87-106) -/

/-- The calls `process_file` can make on the Mistral backend. -/
inductive MistralCall where
  | upload
  | getSignedUrl
  | processUrl
  | deleteFile
deriving DecidableEq, Repr

/-- Trace semantics of `MistralOcrProcessor.process_file` for executions
in which the upload succeeds and a signed URL is obtained (the phase the
claim conditions on).  The body is straight-line code with no
`try`/`finally`: it uploads, gets a signed URL, delegates to
`process_url`, and only then calls `files.delete_async`.  The argument is
the outcome of the delegated `process_url` call; a raised exception
propagates immediately, so the delete call is reached only on success. -/
def processFileTrace (processUrlOutcome : Except Unit OcrResult) :
    List MistralCall × Except Unit OcrResult :=
  match processUrlOutcome with
  | .error e => ([.upload, .getSignedUrl, .processUrl], .error e)
  | .ok r => ([.upload, .getSignedUrl, .processUrl, .deleteFile], .ok r)

/-! ## Structured-output system prompts
(`src/refinery/features/structured_output/structured_output_processor.py`
and `openai_structured_output_processor.py`) -/

/-- `DEFAULT_CONTEXT_PROMPT` from `structured_output_processor.py`. -/
def DEFAULT_CONTEXT_PROMPT : String :=
  "\nHere is some context that may be relevant to the text you are given:\n\n\x7bcontext\x7d\n"

/-- `ContextPrompt.__post_init__`: `prompt_template.format(context=ctx)`,
modelled as replacing the single `\x7bcontext\x7d` placeholder. -/
def renderContextPrompt (prompt_template context : String) : String :=
  prompt_template.replace "\x7bcontext\x7d" context

/-- One call of `OpenAIStructuredOutputProcessor.process`, restricted to
its effect on the stored `system_prompt` field and to the system prompt
submitted to the backend.  The source executes
`self.system_prompt += "\n\n" + str(context)` when a context is supplied
and then sends `self.system_prompt`: the first component is the field's
value after the call, the second the prompt actually sent. -/
def processPromptStep (system_prompt : String) (context : Option String) :
    String × String :=
  match context with
  | none => (system_prompt, system_prompt)
  | some rendered =>
    let updated := system_prompt ++ "\n\n" ++ rendered
    (updated, updated)

/-! ## JSON values

Python `dict`s coming from `json.loads` are insertion-ordered maps with
unique keys; they are modelled as ordered association lists. -/

inductive Json where
  | null
  | bool (b : Bool)
  | num (q : ℚ)
  | str (s : String)
  | arr (elements : List Json)
  | obj (fields : List (String × Json))

/-- First-match lookup in an association list (Python dict indexing; the
dicts arising from Python have unique keys, so first-match is exact). -/
def jsonLookup : List (String × Json) → String → Option Json
  | [], _ => none
  | (k, v) :: rest, key => if k = key then some v else jsonLookup rest key

/-- Member access on a JSON value: defined for objects only. -/
def Json.get (j : Json) (key : String) : Option Json :=
  match j with
  | .obj fields => jsonLookup fields key
  | _ => none

/-- `o.bind (·.get key)`: follow a member access through an `Option`. -/
def optGet (o : Option Json) (key : String) : Option Json :=
  o.bind fun j => j.get key

/-! ## Confidence wrapper schema
(`src/refinery/features/structured_output/openai_structured_output_with_confidence.py`,
`_create_confidence_schema`, lines 49-114) -/

/-- The per-field entry of `field_scores_properties`:
`{"type": "number", "minimum": 0, "maximum": 1, "description": f"Confidence score for the '{field}' field"}`. -/
def fieldScoreSchema (f : String) : Json :=
  .obj [("type", .str "number"), ("minimum", .num 0), ("maximum", .num 1),
    ("description", .str ("Confidence score for the \x27" ++ f ++ "\x27 field"))]

/-- The `overall` member of the confidence sub-schema. -/
def overallScoreSchema : Json :=
  .obj [("type", .str "number"), ("minimum", .num 0), ("maximum", .num 1),
    ("description", .str "Overall confidence in the extraction")]

/-- `_create_confidence_schema(original_schema)`.  The caller schema is a
Python dict (an ordered field list here).  The source first reads
`original_schema.get("properties", {})` and iterates `.keys()` over it —
an `AttributeError` (modelled `none`) if that value is not a dict; Python
dict keys are unique, so the iteration is the field list itself.  It then
builds the `output` copy of the caller schema (type/properties/required/
additionalProperties, plus title and description when present; top-level
`$schema` and `strict` are never copied) and wraps it beside the
`confidence` sub-schema. -/
def createConfidenceSchema (original_schema : List (String × Json)) : Option Json :=
  match (jsonLookup original_schema "properties").getD (.obj []) with
  | .obj original_properties =>
    let field_scores_properties : List (String × Json) :=
      original_properties.map fun p => (p.1, fieldScoreSchema p.1)
    let output_schema : Json := .obj
      ([("type", Json.str "object"),
        ("properties", Json.obj original_properties),
        ("required", (jsonLookup original_schema "required").getD (.arr [])),
        ("additionalProperties",
          (jsonLookup original_schema "additionalProperties").getD (.bool false))] ++
       (match jsonLookup original_schema "title" with
        | some t => [("title", t)]
        | none => []) ++
       (match jsonLookup original_schema "description" with
        | some d => [("description", d)]
        | none => []))
    some (.obj
      [("$schema", .str "https://json-schema.org/draft-07/schema#"),
       ("type", .str "object"),
       ("strict", .bool true),
       ("properties", .obj
         [("output", output_schema),
          ("confidence", .obj
            [("type", .str "object"),
             ("properties", .obj
               [("overall", overallScoreSchema),
                ("field_scores", .obj
                  [("type", .str "object"),
                   ("properties", .obj field_scores_properties),
                   ("required", .arr (field_scores_properties.map fun p => .str p.1)),
                   ("additionalProperties", .bool false)])]),
             ("required", .arr [.str "overall", .str "field_scores"]),
             ("additionalProperties", .bool false)])]),
       ("required", .arr [.str "output", .str "confidence"]),
       ("additionalProperties", .bool false)])
  | _ => none

/-- The `StructuredOutputWithConfidenceResult` dataclass. -/
structure SOWCResult where
  output : Json
  field_scores : Option Json
  schema_matching_confidence : Option Json

/-- The tail of `process_with_confidence` (lines 158-175): the backend's
single text output has been parsed by `json.loads` into `parsed`.  The
code evaluates `parsed_response.get("confidence", {}).get("overall")`
(for a log line), `parsed_response["output"]` (a `KeyError` when absent),
and `confidence_data.get(...)` for the two confidence entries; `.get` on
a non-dict raises `AttributeError`.  Every raised exception is modelled
as `none`. -/
def extractWithConfidence (parsed : Json) : Option SOWCResult :=
  match parsed with
  | .obj fields =>
    match (jsonLookup fields "confidence").getD (.obj []) with
    | .obj confidence_data =>
      match jsonLookup fields "output" with
      | some output =>
        some ⟨output, jsonLookup confidence_data "field_scores",
          jsonLookup confidence_data "overall"⟩
      | none => none
    | _ => none
  | _ => none

/-! ## Draft-7 schema validation and the refine endpoints
(`src/refinery/validators/json_schema.py`, `src/refinery/routers/refine.py`) -/

/-- The seven Draft-7 `simpleTypes` names. -/
def draft7SimpleTypes : List String :=
  ["array", "boolean", "integer", "null", "number", "object", "string"]

/-- A JSON value that is a Draft-7 simple type name. -/
def isSimpleTypeName (j : Json) : Bool :=
  match j with
  | .str s => draft7SimpleTypes.contains s
  | _ => false

/-- The Draft-7 rule for a `type` keyword value: a simple type name or a
non-empty array of simple type names. -/
def typeKeywordOk (j : Json) : Bool :=
  match j with
  | .str s => draft7SimpleTypes.contains s
  | .arr xs => !xs.isEmpty && xs.all isSimpleTypeName
  | _ => false

mutual

/-- Modelled from the spec: `is_json_schema_draft_7` delegates the
"Draft-7 structural well-formedness check" to the third-party
`jsonschema.Draft7Validator.check_schema`, whose code is not part of this
repository.  This models the fragment of that check the spec relies on —
the `type`-keyword rule above, applied at the top level and recursively
through every nested object and array (as the meta-schema does through
`properties` etc.); in particular a schema whose `properties.name.type`
is `"any"` fails.  This is the schema check run by the pydantic
`AfterValidator` on every refine request's `json_schema` field. -/
def checkDraft7 : Json → Bool
  | .obj fields =>
    (match jsonLookup fields "type" with
     | some t => typeKeywordOk t
     | none => true) &&
    checkDraft7Fields fields
  | .arr xs => checkDraft7List xs
  | _ => true

def checkDraft7Fields : List (String × Json) → Bool
  | [] => true
  | p :: rest => checkDraft7 p.2 && checkDraft7Fields rest

def checkDraft7List : List Json → Bool
  | [] => true
  | x :: rest => checkDraft7 x && checkDraft7List rest

end

/-- Backend side effects a refine request can cause, in the order the
handlers in `refine.py` perform them. -/
inductive BackendCall where
  | presignedUrl
  | ocrBackend
  | summarizationBackend
  | extractionBackend
deriving DecidableEq, Repr

/-- A refine request body: the input locator is abstracted away (URL,
uploaded file, or S3 coordinates), keeping the fields validation looks
at. -/
structure RefineRequest where
  json_schema : Json
  context : Option String

/-- `POST /refine/url` (and, with the same shape, `POST /refine/upload`):
pydantic validates `json_schema` with `is_json_schema_draft_7` while
parsing the request body, before the handler body runs; the handler then
calls OCR, summarization, and confidence-aware extraction in sequence.
Returns the list of backend calls made and whether the request was
accepted. -/
def refineUrlPipeline (request : RefineRequest) : List BackendCall × Bool :=
  if checkDraft7 request.json_schema then
    ([.ocrBackend, .summarizationBackend, .extractionBackend], true)
  else
    ([], false)

/-- `POST /refine/upload`: the `json_schema` form field is validated with
`is_json_schema_draft_7_string` during request parsing (JSON-parse, then
the same Draft-7 check), before the handler body runs; the handler's
backend calls are the same three as `/refine/url`.  The `parses` flag is
the outcome of `json.loads` on the form string. -/
def refineUploadPipeline (parses : Bool) (request : RefineRequest) :
    List BackendCall × Bool :=
  if parses && checkDraft7 request.json_schema then
    ([.ocrBackend, .summarizationBackend, .extractionBackend], true)
  else
    ([], false)

/-- `POST /refine/s3`: same parse-time schema validation; the handler
first checks the S3 configuration (rejecting with no backend call when
unset), then issues a presigned URL and runs the same three stages. -/
def refineS3Pipeline (s3Configured : Bool) (request : RefineRequest) :
    List BackendCall × Bool :=
  if checkDraft7 request.json_schema then
    if s3Configured then
      ([.presignedUrl, .ocrBackend, .summarizationBackend, .extractionBackend], true)
    else
      ([], false)
  else
    ([], false)

/-! ## Theorems -/

/-- C6: `estimate_summarization_confidence` returns 0.3 whenever
`original_length == 0`; otherwise, with `ratio = summary_length /
original_length`, it returns 0.9 when the ratio is in [0.10, 0.30], 0.7
when it is in [0.05, 0.40] but outside the ideal range, 0.5 when it is
below 0.05, and 0.6 otherwise; and the three quoted evaluations hold. -/
theorem summarization_confidence_meets_spec :
    (∀ s : ℤ, estimate_summarization_confidence 0 s = 3/10) ∧
    (∀ o s : ℤ, o ≠ 0 →
      ((1/10 ≤ (s : ℚ) / (o : ℚ) ∧ (s : ℚ) / (o : ℚ) ≤ 3/10) →
        estimate_summarization_confidence o s = 9/10) ∧
      ((1/20 ≤ (s : ℚ) / (o : ℚ) ∧ (s : ℚ) / (o : ℚ) ≤ 2/5) →
        ¬(1/10 ≤ (s : ℚ) / (o : ℚ) ∧ (s : ℚ) / (o : ℚ) ≤ 3/10) →
        estimate_summarization_confidence o s = 7/10) ∧
      ((s : ℚ) / (o : ℚ) < 1/20 →
        estimate_summarization_confidence o s = 1/2) ∧
      (¬(1/10 ≤ (s : ℚ) / (o : ℚ) ∧ (s : ℚ) / (o : ℚ) ≤ 3/10) →
        ¬(1/20 ≤ (s : ℚ) / (o : ℚ) ∧ (s : ℚ) / (o : ℚ) ≤ 2/5) →
        ¬((s : ℚ) / (o : ℚ) < 1/20) →
        estimate_summarization_confidence o s = 3/5)) ∧
    estimate_summarization_confidence 1000 200 = 9/10 ∧
    estimate_summarization_confidence 1000 500 = 3/5 ∧
    estimate_summarization_confidence 0 100 = 3/10 := by
  refine ⟨?_, ?_, ?_, ?_, ?_⟩
  · intro s; simp [estimate_summarization_confidence]
  · intro o s ho
    simp only [estimate_summarization_confidence, if_neg ho]
    refine ⟨?_, ?_, ?_, ?_⟩
    · intro h1; rw [if_pos h1]
    · intro h2 h1; rw [if_neg h1, if_pos h2]
    · intro h
      rw [if_neg (fun h1 => by rcases h1 with ⟨ha, _⟩; linarith),
        if_neg (fun h2 => by rcases h2 with ⟨ha, _⟩; linarith), if_pos h]
    · intro h1 h2 h3; rw [if_neg h1, if_neg h2, if_neg h3]
  · norm_num [estimate_summarization_confidence]
  · norm_num [estimate_summarization_confidence]
  · norm_num [estimate_summarization_confidence]

/-- Closed instance of the hypothesis-bearing clauses of
`summarization_confidence_meets_spec`, evaluated at `(1000, 200)`. -/
theorem summarization_confidence_meets_spec_example :
    (1000 : ℤ) ≠ 0 ∧
    (1/10 ≤ (200 : ℚ) / (1000 : ℚ) ∧ (200 : ℚ) / (1000 : ℚ) ≤ 3/10) ∧
    estimate_summarization_confidence 1000 200 = 9/10 :=
  ⟨by norm_num, by norm_num,
    (summarization_confidence_meets_spec.2.1 1000 200 (by norm_num)).1
      (by norm_num)⟩

/-- C7: `estimate_ocr_confidence` is the total step function on
`avg_chars_per_page` (which is 0 when `page_count ≤ 0`): it returns 0.3
below 100 average characters per page, 0.6 below 500, 0.8 below 1500 and
0.9 otherwise, and on positive page counts with nonnegative text lengths
it is monotonically non-decreasing in `avg_chars_per_page`. -/
theorem ocr_confidence_step_monotone :
    (∀ t p : ℤ, estimate_ocr_confidence t p =
      ocrConfidenceStep (avgCharsPerPage t p)) ∧
    (∀ t p : ℤ, p ≤ 0 → avgCharsPerPage t p = 0) ∧
    (∀ a : ℚ, a < 100 → ocrConfidenceStep a = 3/10) ∧
    (∀ a : ℚ, 100 ≤ a → a < 500 → ocrConfidenceStep a = 3/5) ∧
    (∀ a : ℚ, 500 ≤ a → a < 1500 → ocrConfidenceStep a = 4/5) ∧
    (∀ a : ℚ, 1500 ≤ a → ocrConfidenceStep a = 9/10) ∧
    (∀ t p t2 p2 : ℤ, 0 < p → 0 < p2 → 0 ≤ t → 0 ≤ t2 →
      avgCharsPerPage t p ≤ avgCharsPerPage t2 p2 →
      estimate_ocr_confidence t p ≤ estimate_ocr_confidence t2 p2) := by
  have hmono : ∀ a b : ℚ, a ≤ b → ocrConfidenceStep a ≤ ocrConfidenceStep b := by
    intro a b hab
    unfold ocrConfidenceStep
    split_ifs <;> linarith
  refine ⟨fun t p => rfl, ?_, ?_, ?_, ?_, ?_, ?_⟩
  · intro t p hp
    simp [avgCharsPerPage, not_lt.mpr hp]
  · intro a h; simp [ocrConfidenceStep, h]
  · intro a h1 h2
    simp [ocrConfidenceStep, h2, not_lt.mpr h1]
  · intro a h1 h2
    rw [ocrConfidenceStep, if_neg (by linarith), if_neg (by linarith), if_pos h2]
  · intro a h1
    rw [ocrConfidenceStep, if_neg (by linarith), if_neg (by linarith),
      if_neg (by linarith)]
  · intro t p t2 p2 _ _ _ _ havg
    exact hmono _ _ havg

/-- Closed instance of the monotonicity clause of
`ocr_confidence_step_monotone`: 300 chars on one page against 3000 chars
on two pages. -/
theorem ocr_confidence_step_monotone_example :
    (0 : ℤ) < 1 ∧ (0 : ℤ) < 2 ∧ (0 : ℤ) ≤ 300 ∧ (0 : ℤ) ≤ 3000 ∧
    avgCharsPerPage 300 1 ≤ avgCharsPerPage 3000 2 ∧
    estimate_ocr_confidence 300 1 ≤ estimate_ocr_confidence 3000 2 :=
  ⟨by norm_num, by norm_num, by norm_num, by norm_num,
    by norm_num [avgCharsPerPage],
    ocr_confidence_step_monotone.2.2.2.2.2.2 300 1 3000 2 (by norm_num)
      (by norm_num) (by norm_num) (by norm_num)
      (by norm_num [avgCharsPerPage])⟩

/-- C4: the claim requires the uploaded artifact to be deleted from the
backend whether the delegated `process_url` call succeeds or raises.  The
code performs the delete after `process_url` with no `try`/`finally`, so
on the failing branch the delete call never happens: the failure trace
contains no `deleteFile`, while the success trace does. -/
theorem process_file_skips_delete_on_failure :
    (processFileTrace (.error ())).1 =
      [MistralCall.upload, MistralCall.getSignedUrl, MistralCall.processUrl] ∧
    MistralCall.deleteFile ∉ (processFileTrace (.error ())).1 ∧
    MistralCall.deleteFile ∈ (processFileTrace (.ok (OcrResult.create []))).1 :=
  ⟨rfl, by decide, by decide⟩

/-- C9: the claim says a call of the plain structured-output processor's
`process` leaves `system_prompt` unchanged and that two identical calls
build identical system prompts.  The source instead executes
`self.system_prompt += "\n\n" + str(context)`: after any call with a
context the stored field has changed, and a second identical call sends
a different (longer) prompt than the first. -/
theorem process_mutates_stored_system_prompt :
    ∀ system_prompt context : String,
      (processPromptStep system_prompt (some context)).1 ≠ system_prompt ∧
      (processPromptStep (processPromptStep system_prompt (some context)).1
          (some context)).2 ≠
        (processPromptStep system_prompt (some context)).2 := by
  intro sp c
  have htwo : ("\n\n" : String).length = 2 := rfl
  constructor
  · show sp ++ "\n\n" ++ c ≠ sp
    intro h
    have hl := congrArg String.length h
    simp only [String.length_append, htwo] at hl
    omega
  · show (sp ++ "\n\n" ++ c) ++ "\n\n" ++ c ≠ sp ++ "\n\n" ++ c
    intro h
    have hl := congrArg String.length h
    simp only [String.length_append, htwo] at hl
    omega

/-- Helper for C3: inserting an element that is `≤` the head keeps it in
front. -/
theorem sortByPageNumber_eq_of_sorted :
    ∀ pages : List OCRPageResult, PagesInOrder pages →
      sortByPageNumber pages = pages := by
  intro pages h
  induction pages with
  | nil => rfl
  | cons x xs ih =>
    rcases List.pairwise_cons.mp h with ⟨hx, hxs⟩
    rw [sortByPageNumber, ih hxs]
    cases xs with
    | nil => rfl
    | cons y ys =>
      rw [insertByPageNumber, if_pos (hx y (by simp))]

/-- C3 (corrected): `combined_markdown` is computed once at construction
as the join of the pages in the order they were supplied; it agrees with
the spec's page_number-order join exactly when the supplied list is
already sorted by page number, and on `[(1,"A"),(2,"B")]` it is the
quoted string. -/
theorem combined_markdown_joins_in_supplied_order :
    (∀ pages : List OCRPageResult,
      (OcrResult.create pages).combined_markdown = combine_results pages) ∧
    (∀ pages : List OCRPageResult, PagesInOrder pages →
      combine_results pages = specCombinedMarkdown pages) ∧
    combine_results [⟨1, "A"⟩, ⟨2, "B"⟩] =
      "Page 1:\nA\n\n\\pagebreak\n\nPage 2:\nB" := by
  refine ⟨fun pages => rfl, ?_, by decide⟩
  intro pages h
  rw [specCombinedMarkdown, sortByPageNumber_eq_of_sorted pages h]

/-- Closed instance of `combined_markdown_joins_in_supplied_order` at the
sorted page list `[(1,"A"),(2,"B")]`. -/
theorem combined_markdown_joins_in_supplied_order_example :
    PagesInOrder [⟨1, "A"⟩, ⟨2, "B"⟩] ∧
    combine_results [⟨1, "A"⟩, ⟨2, "B"⟩] =
      specCombinedMarkdown [⟨1, "A"⟩, ⟨2, "B"⟩] :=
  ⟨by constructor <;> simp, combined_markdown_joins_in_supplied_order.2.1
    [⟨1, "A"⟩, ⟨2, "B"⟩] (by constructor <;> simp)⟩

/-- C3, the claim as frozen, is false: `combine_results` does not sort,
so supplying the pages as `[(2,"B"),(1,"A")]` yields the pages in the
supplied order, not in page_number order. -/
theorem combined_markdown_not_sorted_counterexample :
    (OcrResult.create [⟨2, "B"⟩, ⟨1, "A"⟩]).combined_markdown =
      "Page 2:\nB\n\n\\pagebreak\n\nPage 1:\nA" ∧
    (OcrResult.create [⟨2, "B"⟩, ⟨1, "A"⟩]).combined_markdown ≠
      "Page 1:\nA\n\n\\pagebreak\n\nPage 2:\nB" :=
  ⟨rfl, by decide⟩

/-- C5: on each of the three input sources, a request whose JSON schema
fails the Draft-7 structural check is rejected during request parsing,
before any OCR, summarization, extraction, or presigned-URL backend is
invoked: the backend-call trace is empty and the request is not
accepted. -/
theorem invalid_schema_rejected_before_backends :
    ∀ request : RefineRequest, checkDraft7 request.json_schema = false →
      refineUrlPipeline request = ([], false) ∧
      (∀ parses : Bool, refineUploadPipeline parses request = ([], false)) ∧
      (∀ s3Configured : Bool,
        refineS3Pipeline s3Configured request = ([], false)) := by
  intro request h
  refine ⟨?_, fun parses => ?_, fun s3Configured => ?_⟩ <;>
    simp [refineUrlPipeline, refineUploadPipeline, refineS3Pipeline, h]

/-- Closed instance of `invalid_schema_rejected_before_backends`: the
schema whose `properties.name.type` is `"any"` fails the Draft-7 check,
and the URL pipeline rejects it with an empty backend trace. -/
theorem invalid_schema_rejected_before_backends_example :
    checkDraft7 (.obj [("type", .str "object"),
      ("properties", .obj [("name", .obj [("type", .str "any")])])]) = false ∧
    refineUrlPipeline
      ⟨.obj [("type", .str "object"),
        ("properties", .obj [("name", .obj [("type", .str "any")])])], none⟩ =
      ([], false) :=
  have h : checkDraft7 (.obj [("type", .str "object"),
      ("properties", .obj [("name", .obj [("type", .str "any")])])]) = false := by
    simp [checkDraft7, checkDraft7Fields, checkDraft7List, typeKeywordOk,
      jsonLookup, draft7SimpleTypes]
  ⟨h, (invalid_schema_rejected_before_backends
    ⟨.obj [("type", .str "object"),
      ("properties", .obj [("name", .obj [("type", .str "any")])])], none⟩ h).1⟩

/-- Normalizing each weight and then summing is the same as dividing the
weighted sum by the total weight. -/
theorem weighted_sum_div (l : List (ℚ × ℚ)) (T : ℚ) :
    (l.map fun p => p.1 * (p.2 / T)).sum = (l.map fun p => p.1 * p.2).sum / T := by
  induction l with
  | nil => simp
  | cons x xs ih =>
    simp only [List.map_cons, List.sum_cons, ih]
    ring

/-- `overallFromPairs` on a nonempty list with nonzero total weight is
the rounded renormalized weighted sum. -/
theorem overallFromPairs_eq_div (l : List (ℚ × ℚ)) (hne : l ≠ [])
    (hT : (l.map Prod.snd).sum ≠ 0) :
    overallFromPairs l =
      some (round3 ((l.map fun p => p.1 * p.2).sum / (l.map Prod.snd).sum)) := by
  rw [overallFromPairs, if_neg hne]
  simp only [if_neg hT, weighted_sum_div]

/-- `round3` maps the unit interval into itself. -/
theorem round3_mem_unit {q : ℚ} (h0 : 0 ≤ q) (h1 : q ≤ 1) :
    0 ≤ round3 q ∧ round3 q ≤ 1 := by
  have hfl : (0 : ℤ) ≤ ⌊q * 1000 + 1/2⌋ := by
    rw [Int.le_floor]
    push_cast
    linarith
  have hfu : ⌊q * 1000 + 1/2⌋ ≤ 1000 := by
    have h2 : ⌊q * 1000 + 1/2⌋ ≤ ⌊(1000 + 1/2 : ℚ)⌋ :=
      Int.floor_mono (by linarith)
    have h3 : ⌊(1000 + 1/2 : ℚ)⌋ = 1000 := by
      rw [Int.floor_eq_iff]
      norm_num
    omega
  constructor
  · rw [round3]
    positivity
  · rw [round3, div_le_one (by norm_num)]
    exact_mod_cast hfu

/-- `overallFromPairs` of scores in `[0,1]` with nonnegative weights of
positive total is a defined value in `[0,1]`. -/
theorem overallFromPairs_mem_unit (l : List (ℚ × ℚ))
    (hp : ∀ p ∈ l, 0 ≤ p.1 ∧ p.1 ≤ 1 ∧ 0 ≤ p.2)
    (hT : 0 < (l.map Prod.snd).sum) :
    ∃ r, overallFromPairs l = some r ∧ 0 ≤ r ∧ r ≤ 1 := by
  have hne : l ≠ [] := by
    intro h
    rw [h] at hT
    simp at hT
  have hq0 : 0 ≤ (l.map fun p => p.1 * p.2).sum := by
    apply List.sum_nonneg
    intro x hx
    rcases List.mem_map.mp hx with ⟨p, hpl, rfl⟩
    rcases hp p hpl with ⟨h1, _, h3⟩
    positivity
  have hq1 : (l.map fun p => p.1 * p.2).sum ≤ (l.map Prod.snd).sum := by
    calc (l.map fun p => p.1 * p.2).sum
        ≤ (l.map fun p => 1 * p.2).sum := by
          apply List.sum_le_sum
          intro p hpl
          rcases hp p hpl with ⟨h1, h2, h3⟩
          nlinarith
      _ = (l.map Prod.snd).sum := by simp
  rw [overallFromPairs_eq_div l hne (ne_of_gt hT)]
  refine ⟨_, rfl, ?_⟩
  apply round3_mem_unit
  · positivity
  · rw [div_le_one hT]
    exact hq1

/-- `overallFromPairs` only depends on the multiset of collected
(score, weight) pairs, not on their order. -/
theorem overallFromPairs_perm {l l2 : List (ℚ × ℚ)} (h : l.Perm l2) :
    overallFromPairs l = overallFromPairs l2 := by
  by_cases hl : l = []
  · have hl2 : l2 = [] := by
      rw [hl] at h
      exact h.symm.eq_nil
    rw [hl, hl2]
  · have hl2 : l2 ≠ [] := by
      intro hh
      rw [hh] at h
      exact hl h.eq_nil
    have hsum : (l.map Prod.snd).sum = (l2.map Prod.snd).sum :=
      (h.map Prod.snd).sum_eq
    rw [overallFromPairs, overallFromPairs, if_neg hl, if_neg hl2, ← hsum]
    rcases eq_or_ne ((l.map Prod.snd).sum) 0 with hT | hT
    · simp [hT]
    · simp only [if_neg hT]
      exact congrArg (fun q => some (round3 q))
        ((h.map fun p => p.1 * (p.2 / (l.map Prod.snd).sum)).sum_eq)

/-- C1: with the default weights 0.3/0.2/0.5, `calculate_overall_confidence`
returns 0.5 on no inputs; on any nonempty set of present inputs it
renormalizes the present weights to sum to 1, takes the weighted sum,
and rounds to three decimals; and the two quoted evaluations hold. -/
theorem overall_confidence_default_weights :
    calculate_overall_confidence defaultCalculator none none none =
      some (1/2) ∧
    (∀ ocr summarization schema_matching : Option ℚ,
      presentPairs defaultCalculator ocr summarization schema_matching ≠ [] →
      calculate_overall_confidence defaultCalculator ocr summarization
          schema_matching =
        some (round3
          (((presentPairs defaultCalculator ocr summarization
              schema_matching).map fun p => p.1 * p.2).sum /
           ((presentPairs defaultCalculator ocr summarization
              schema_matching).map Prod.snd).sum))) ∧
    calculate_overall_confidence defaultCalculator (some (4/5)) (some (7/10))
        (some (9/10)) = some (83/100) ∧
    calculate_overall_confidence defaultCalculator (some (4/5)) none
        (some (9/10)) = some (863/1000) := by
  refine ⟨?_, ?_, ?_, ?_⟩
  · norm_num [calculate_overall_confidence, presentPairs, collectScore, overallFromPairs,
      defaultCalculator]
  · intro o s m hne
    have hT : ((presentPairs defaultCalculator o s m).map Prod.snd).sum ≠ 0 := by
      rcases o with _ | x <;> rcases s with _ | y <;> rcases m with _ | z <;>
        simp [presentPairs, collectScore, defaultCalculator] at hne ⊢ <;> norm_num
    exact overallFromPairs_eq_div _ hne hT
  · norm_num [calculate_overall_confidence, presentPairs, collectScore, overallFromPairs,
      defaultCalculator, round3, List.cons_ne_nil, Int.floor_eq_iff]
  · norm_num [calculate_overall_confidence, presentPairs, collectScore, overallFromPairs,
      defaultCalculator, round3, List.cons_ne_nil, Int.floor_eq_iff]

/-- Closed instance of the renormalization clause of
`overall_confidence_default_weights` with only the OCR input present. -/
theorem overall_confidence_default_weights_example :
    presentPairs defaultCalculator (some 1) none none ≠ [] ∧
    calculate_overall_confidence defaultCalculator (some 1) none none =
      some (round3
        (((presentPairs defaultCalculator (some 1) none none).map
            fun p => p.1 * p.2).sum /
         ((presentPairs defaultCalculator (some 1) none none).map
            Prod.snd).sum)) :=
  ⟨by simp [presentPairs, collectScore, defaultCalculator],
    overall_confidence_default_weights.2.1 (some 1) none none
      (by simp [presentPairs, collectScore, defaultCalculator])⟩

/-- A pair in a `collectScore` segment is the present score with its
weight. -/
theorem collectScore_mem {score : Option ℚ} {w : ℚ} {p : ℚ × ℚ}
    (hp : p ∈ collectScore score w) : score = some p.1 ∧ p.2 = w := by
  cases score with
  | none => simp [collectScore] at hp
  | some x =>
    simp only [collectScore, List.mem_singleton] at hp
    rw [hp]
    exact ⟨rfl, rfl⟩

/-- Every collected pair has a score in `[0,1]` and a nonnegative weight,
provided the inputs and weights are such. -/
theorem presentPairs_bounds (c : ConfidenceCalculator)
    (ocr summarization schema_matching : Option ℚ)
    (hw1 : 0 ≤ c.ocr_weight) (hw2 : 0 ≤ c.summarization_weight)
    (hw3 : 0 ≤ c.schema_matching_weight)
    (ho : ∀ x, ocr = some x → 0 ≤ x ∧ x ≤ 1)
    (hs : ∀ x, summarization = some x → 0 ≤ x ∧ x ≤ 1)
    (hm : ∀ x, schema_matching = some x → 0 ≤ x ∧ x ≤ 1) :
    ∀ p ∈ presentPairs c ocr summarization schema_matching,
      0 ≤ p.1 ∧ p.1 ≤ 1 ∧ 0 ≤ p.2 := by
  intro p hp
  rcases List.mem_append.mp hp with hp1 | hp1
  · rcases List.mem_append.mp hp1 with hp2 | hp2
    · rcases collectScore_mem hp2 with ⟨hx, hw⟩
      exact ⟨(ho p.1 hx).1, (ho p.1 hx).2, hw ▸ hw1⟩
    · rcases collectScore_mem hp2 with ⟨hx, hw⟩
      exact ⟨(hs p.1 hx).1, (hs p.1 hx).2, hw ▸ hw2⟩
  · rcases collectScore_mem hp1 with ⟨hx, hw⟩
    exact ⟨(hm p.1 hx).1, (hm p.1 hx).2, hw ▸ hw3⟩

/-- C8 (corrected): for nonnegative construction-time weights and present
inputs in `[0,1]`, `calculate_overall_confidence` returns the default 0.5
when nothing is present, returns a defined value in `[0,1]` whenever the
present components' total weight is positive (as with the default
weights), and the result is invariant under exchanging the (input,
weight) pairs between component slots, i.e. it does not depend on the
relative ordering of the inputs. -/
theorem overall_confidence_range_and_order_invariance :
    ∀ (w1 w2 w3 : ℚ) (ocr summarization schema_matching : Option ℚ),
      0 ≤ w1 → 0 ≤ w2 → 0 ≤ w3 →
      (∀ x, ocr = some x → 0 ≤ x ∧ x ≤ 1) →
      (∀ x, summarization = some x → 0 ≤ x ∧ x ≤ 1) →
      (∀ x, schema_matching = some x → 0 ≤ x ∧ x ≤ 1) →
      (presentPairs ⟨w1, w2, w3⟩ ocr summarization schema_matching = [] →
        calculate_overall_confidence ⟨w1, w2, w3⟩ ocr summarization
          schema_matching = some (1/2)) ∧
      (0 < ((presentPairs ⟨w1, w2, w3⟩ ocr summarization
            schema_matching).map Prod.snd).sum →
        calculate_overall_confidence ⟨w1, w2, w3⟩ ocr summarization
            schema_matching ≠ none ∧
        0 ≤ (calculate_overall_confidence ⟨w1, w2, w3⟩ ocr summarization
            schema_matching).getD 0 ∧
        (calculate_overall_confidence ⟨w1, w2, w3⟩ ocr summarization
            schema_matching).getD 0 ≤ 1) ∧
      calculate_overall_confidence ⟨w1, w2, w3⟩ ocr summarization
          schema_matching =
        calculate_overall_confidence ⟨w2, w1, w3⟩ summarization ocr
          schema_matching ∧
      calculate_overall_confidence ⟨w1, w2, w3⟩ ocr summarization
          schema_matching =
        calculate_overall_confidence ⟨w1, w3, w2⟩ ocr schema_matching
          summarization := by
  intro w1 w2 w3 o s m hw1 hw2 hw3 ho hs hm
  refine ⟨?_, ?_, ?_, ?_⟩
  · intro h
    rw [calculate_overall_confidence, h]
    rfl
  · intro hT
    rcases overallFromPairs_mem_unit _
      (presentPairs_bounds ⟨w1, w2, w3⟩ o s m hw1 hw2 hw3 ho hs hm) hT with
      ⟨r, hr, hr0, hr1⟩
    rw [calculate_overall_confidence, hr]
    exact ⟨by simp, by simpa using hr0, by simpa using hr1⟩
  · apply overallFromPairs_perm
    exact List.Perm.append_right _ List.perm_append_comm
  · apply overallFromPairs_perm
    show List.Perm
      (collectScore o w1 ++ collectScore s w2 ++ collectScore m w3)
      (collectScore o w1 ++ collectScore m w3 ++ collectScore s w2)
    simp only [List.append_assoc]
    exact List.Perm.append_left _ List.perm_append_comm

/-- C8 as frozen is false: with construction-time weights all zero and an
in-range OCR input present, the source divides by a zero total weight and
raises `ZeroDivisionError` (modelled `none`) instead of returning a value
in `[0,1]`. -/
theorem overall_confidence_zero_weights_counterexample :
    calculate_overall_confidence ⟨0, 0, 0⟩ (some (1/2)) none none = none ∧
    (0 : ℚ) ≤ 1/2 ∧ (1/2 : ℚ) ≤ 1 :=
  ⟨by norm_num [calculate_overall_confidence, presentPairs, collectScore,
    overallFromPairs], by norm_num, by norm_num⟩

/-- Closed instance of `overall_confidence_range_and_order_invariance`
at the default weights with all three inputs present. -/
theorem overall_confidence_range_example :
    0 < ((presentPairs ⟨3/10, 1/5, 1/2⟩ (some (4/5)) (some (7/10))
        (some (9/10))).map Prod.snd).sum ∧
    calculate_overall_confidence ⟨3/10, 1/5, 1/2⟩ (some (4/5)) (some (7/10))
        (some (9/10)) ≠ none ∧
    0 ≤ (calculate_overall_confidence ⟨3/10, 1/5, 1/2⟩ (some (4/5))
        (some (7/10)) (some (9/10))).getD 0 ∧
    (calculate_overall_confidence ⟨3/10, 1/5, 1/2⟩ (some (4/5))
        (some (7/10)) (some (9/10))).getD 0 ≤ 1 :=
  ⟨by norm_num [presentPairs, collectScore],
    (overall_confidence_range_and_order_invariance (3/10) (1/5) (1/2)
      (some (4/5)) (some (7/10)) (some (9/10)) (by norm_num) (by norm_num)
      (by norm_num)
      (by
        intro x hx
        simp only [Option.some.injEq] at hx
        rw [← hx]
        norm_num)
      (by
        intro x hx
        simp only [Option.some.injEq] at hx
        rw [← hx]
        norm_num)
      (by
        intro x hx
        simp only [Option.some.injEq] at hx
        rw [← hx]
        norm_num)).2.1
      (by norm_num [presentPairs, collectScore])⟩

/-- C2 (corrected): for every caller schema whose `properties` member (or
its `{}` default) is an object, the wrapper built by
`_create_confidence_schema` nests the caller's properties, required,
additionalProperties, title and description in the `output` sub-schema,
dropping top-level `$schema`/`strict`; the sibling `confidence`
sub-schema requires exactly `overall` (a number in [0,1]) and
`field_scores` (one required numeric-in-[0,1] property per caller
property key, additionalProperties false); the wrapper requires exactly
`output` and `confidence`; and additionalProperties is false at the
wrapper, confidence and field_scores levels, while the `output` level
carries the caller's own additionalProperties value (defaulting to
false). -/
theorem confidence_schema_nesting :
    ∀ (original_schema props : List (String × Json)),
      (jsonLookup original_schema "properties").getD (.obj []) = .obj props →
      optGet (createConfidenceSchema original_schema) "required" =
        some (.arr [.str "output", .str "confidence"]) ∧
      optGet (createConfidenceSchema original_schema) "additionalProperties" =
        some (.bool false) ∧
      optGet (optGet (optGet (createConfidenceSchema original_schema)
          "properties") "output") "properties" = some (.obj props) ∧
      optGet (optGet (optGet (createConfidenceSchema original_schema)
          "properties") "output") "required" =
        some ((jsonLookup original_schema "required").getD (.arr [])) ∧
      optGet (optGet (optGet (createConfidenceSchema original_schema)
          "properties") "output") "additionalProperties" =
        some ((jsonLookup original_schema "additionalProperties").getD
          (.bool false)) ∧
      optGet (optGet (optGet (createConfidenceSchema original_schema)
          "properties") "output") "title" =
        jsonLookup original_schema "title" ∧
      optGet (optGet (optGet (createConfidenceSchema original_schema)
          "properties") "output") "description" =
        jsonLookup original_schema "description" ∧
      optGet (optGet (optGet (createConfidenceSchema original_schema)
          "properties") "output") "$schema" = none ∧
      optGet (optGet (optGet (createConfidenceSchema original_schema)
          "properties") "output") "strict" = none ∧
      optGet (optGet (optGet (createConfidenceSchema original_schema)
          "properties") "confidence") "required" =
        some (.arr [.str "overall", .str "field_scores"]) ∧
      optGet (optGet (optGet (createConfidenceSchema original_schema)
          "properties") "confidence") "additionalProperties" =
        some (.bool false) ∧
      optGet (optGet (optGet (optGet (createConfidenceSchema original_schema)
          "properties") "confidence") "properties") "overall" =
        some overallScoreSchema ∧
      optGet (optGet (optGet (optGet (optGet
          (createConfidenceSchema original_schema)
          "properties") "confidence") "properties") "field_scores")
          "properties" =
        some (.obj (props.map fun p => (p.1, fieldScoreSchema p.1))) ∧
      optGet (optGet (optGet (optGet (optGet
          (createConfidenceSchema original_schema)
          "properties") "confidence") "properties") "field_scores")
          "required" =
        some (.arr (props.map fun p => .str p.1)) ∧
      optGet (optGet (optGet (optGet (optGet
          (createConfidenceSchema original_schema)
          "properties") "confidence") "properties") "field_scores")
          "additionalProperties" = some (.bool false) := by
  intro original_schema props hprops
  rcases ht : jsonLookup original_schema "title" with _ | t <;>
    rcases hd : jsonLookup original_schema "description" with _ | d <;>
    simp [createConfidenceSchema, hprops, ht, hd, optGet, Json.get,
      jsonLookup]

/-- C2 as frozen is false: the wrapper does not have
`additionalProperties: false` at every level — the `output` sub-schema
copies the caller's `additionalProperties`, so a caller schema carrying
`additionalProperties: true` yields `true` at the output level. -/
theorem confidence_schema_counterexample :
    optGet (optGet (optGet (createConfidenceSchema
        [("properties", Json.obj []), ("additionalProperties", Json.bool true)])
      "properties") "output") "additionalProperties" =
      some (Json.bool true) ∧
    some (Json.bool true) ≠ some (Json.bool false) :=
  ⟨rfl, by simp⟩

/-- Closed instance of `confidence_schema_nesting` at the spec's example
caller schema `{properties: {summary: {type: string}}}`. -/
theorem confidence_schema_nesting_example :
    (jsonLookup [("properties",
        Json.obj [("summary", Json.obj [("type", Json.str "string")])])]
      "properties").getD (Json.obj []) =
      Json.obj [("summary", Json.obj [("type", Json.str "string")])] ∧
    optGet (optGet (optGet (optGet (optGet (createConfidenceSchema
        [("properties",
          Json.obj [("summary", Json.obj [("type", Json.str "string")])])])
        "properties") "confidence") "properties") "field_scores")
        "required" = some (.arr [.str "summary"]) :=
  ⟨rfl,
    (confidence_schema_nesting
      [("properties",
        Json.obj [("summary", Json.obj [("type", Json.str "string")])])]
      [("summary", Json.obj [("type", Json.str "string")])]
      rfl).2.2.2.2.2.2.2.2.2.2.2.2.2.1⟩

/-- C10 (corrected): when the backend's parsed JSON object contains the
key `output` and its `confidence` member, if present, is itself an
object, `process_with_confidence` succeeds with that `output` value, and
a missing `confidence` member or missing `field_scores`/`overall`
entries yield `none` fields rather than an error. -/
theorem extraction_tolerates_missing_confidence :
    ∀ (fields : List (String × Json)) (output : Json),
      jsonLookup fields "output" = some output →
      (jsonLookup fields "confidence" = none →
        extractWithConfidence (.obj fields) = some ⟨output, none, none⟩) ∧
      (∀ confidence_data : List (String × Json),
        jsonLookup fields "confidence" = some (.obj confidence_data) →
        extractWithConfidence (.obj fields) =
          some ⟨output, jsonLookup confidence_data "field_scores",
            jsonLookup confidence_data "overall"⟩) := by
  intro fields output ho
  constructor
  · intro hc
    simp [extractWithConfidence, hc, ho, jsonLookup]
  · intro confidence_data hc
    simp [extractWithConfidence, hc, ho]

/-- C10 as frozen is false: a parsed object that does contain `output`
but whose `confidence` member is a number makes the source raise
`AttributeError` on `confidence_data.get` (modelled `none`) instead of
succeeding. -/
theorem extraction_nonobject_confidence_counterexample :
    jsonLookup [("output", Json.num 1), ("confidence", Json.num 5)]
      "output" = some (Json.num 1) ∧
    extractWithConfidence
      (.obj [("output", Json.num 1), ("confidence", Json.num 5)]) = none :=
  ⟨rfl, rfl⟩

/-- Closed instance of `extraction_tolerates_missing_confidence` on an
object with `output` present and `confidence` absent. -/
theorem extraction_tolerates_missing_confidence_example :
    jsonLookup [("output", Json.num 2)] "output" = some (Json.num 2) ∧
    jsonLookup [("output", Json.num 2)] "confidence" = none ∧
    extractWithConfidence (.obj [("output", Json.num 2)]) =
      some ⟨Json.num 2, none, none⟩ :=
  ⟨rfl, rfl,
    (extraction_tolerates_missing_confidence [("output", Json.num 2)]
      (Json.num 2) rfl).1 rfl⟩

end Refinery
